import Mathlib

/-!
Shallow embedding of `src/preprocess_data.py` from the chessee repository.

The Python module streams a zstd-compressed PGN archive line by line
(`read_zst_file_streaming`), slices the line stream into fixed 20-line game
blocks and extracts fields at fixed indices (`parse_pgn_game`), tokenizes a
move-list line (`parse_moves`), and filters a game-metadata dictionary by a
minimum Elo rating (`filter_games_by_rating`).

Modelling conventions:
- Python strings are Lean `String`s; the Python string methods used by the
  module (`split` with a one-character separator, `strip`, `rstrip`,
  `removeprefix`, `replace(c, "")`, slicing `s[:-n]`, `int(s)`) are modelled
  by structurally recursive functions on the underlying character list, so
  every definition evaluates by kernel reduction.
- A Python function that can raise an uncaught exception (IndexError from a
  list subscript, ValueError from `int`) is modelled with `Option`: `none`
  models the exception escaping the function.
- Python dictionaries with string keys are association lists; `dict.get` with
  a default is `dictGet`.
- The zstd decompression and UTF-8 decoding are I/O; the byte source is
  modelled as the list of decoded text lines it yields.
-/

/-- Characters stripped by Python `str.strip()` with no argument
(whitespace; the archive data only ever carries spaces and tabs). -/
def pyIsSpace (c : Char) : Bool :=
  c == ' ' || c == '\t' || c == '\n' || c == '\r' || c == '\x0b' || c == '\x0c'

/-- Python `s.strip()`: drop whitespace from both ends. -/
def pyStrip (s : String) : String :=
  ⟨((s.data.dropWhile pyIsSpace).reverse.dropWhile pyIsSpace).reverse⟩

/-- Python `s.rstrip(chars)` restricted to the newline characters used at
`line.rstrip("\n\r")` in the source: drop trailing `\n` and `\r`. -/
def pyRstripNewlines (s : String) : String :=
  ⟨(s.data.reverse.dropWhile (fun c => c == '\n' || c == '\r')).reverse⟩

/-- Core of Python `s.split(sep)` for a one-character separator: split at
every occurrence, keeping empty pieces; the empty string gives `[[]]`. -/
def pySplitCharAux (c : Char) : List Char → List (List Char)
  | [] => [[]]
  | x :: xs =>
    match pySplitCharAux c xs, x == c with
    | r, true => [] :: r
    | [], false => [[x]]
    | h :: t, false => (x :: h) :: t

/-- Python `s.split(sep)` for a one-character separator `sep`. -/
def pySplit (s : String) (c : Char) : List String :=
  (pySplitCharAux c s.data).map (fun l => ⟨l⟩)

/-- Python `s.replace(old, "")` for a one-character `old`: delete every
occurrence of the character. -/
def pyDeleteChar (s : String) (c : Char) : String :=
  ⟨s.data.filter (fun x => x ≠ c)⟩

/-- Python `s.removeprefix(p)`: drop `p` from the front when it is a prefix,
otherwise return `s` unchanged. -/
def pyRemovePfx (s p : String) : String :=
  if p.data.isPrefixOf s.data then ⟨s.data.drop p.data.length⟩ else s

/-- Python slice `s[:-n]` for `n > 0`: all but the last `n` characters
(clamping to the empty string when `s` is shorter than `n`). -/
def pySliceDropLast (s : String) (n : Nat) : String :=
  ⟨s.data.take (s.data.length - n)⟩

/-- Value of a digit list read in base 10. -/
def digitsVal (l : List Char) : Nat :=
  l.foldl (fun a c => a * 10 + (c.toNat - '0'.toNat)) 0

/-- Python `int(s)` on a string: surrounding whitespace is ignored, one
optional sign, then at least one decimal digit; anything else raises
ValueError, modelled as `none`. -/
def pyInt (s : String) : Option Int :=
  let t := (pyStrip s).data
  match t with
  | '-' :: rest =>
    if rest.isEmpty then none
    else if rest.all Char.isDigit then some (-(digitsVal rest : Int)) else none
  | '+' :: rest =>
    if rest.isEmpty then none
    else if rest.all Char.isDigit then some (digitsVal rest : Int) else none
  | _ =>
    if t.isEmpty then none
    else if t.all Char.isDigit then some (digitsVal t : Int) else none

/-- Python `d.get(k, dflt)` on a string-keyed dictionary modelled as an
association list. -/
def dictGet (d : List (String × String)) (k dflt : String) : String :=
  match d.find? (fun p => p.1 == k) with
  | some p => p.2
  | none => dflt

/-- `parse_moves` from `src/preprocess_data.py`: chop the last five
characters (the hard-coded trim meant to drop the result token), strip,
split on closing braces, and from each piece take the text before the first
dot as the round and the second space-separated token as the move.
`line.strip().split(" ")[1]` raises IndexError when a piece holds fewer than
two space-separated tokens; the escaping exception is modelled as `none`. -/
def parse_moves (moves_pre : String) : Option (List (String × String)) :=
  let mp := pyStrip (pySliceDropLast moves_pre 5)
  (pySplit mp '}').mapM (fun line =>
    let round := ((pySplit (pyStrip line) '.').headD "")
    match (pySplit (pyStrip line) ' ')[1]? with
    | some move => some (round, move)
    | none => none)

/-- The dictionary that one iteration of `parse_pgn_game` builds for a game:
the four string-valued entries keyed `result`, `white_elo`, `black_elo`,
`opening`, plus the tokenized move list stored under the key `moves`. -/
structure ParsedGame where
  result : String
  white_elo : String
  black_elo : String
  opening : String
  moves : List (String × String)
deriving DecidableEq

/-- The field-extraction idiom of `parse_pgn_game`:
`line.removeprefix(tag).replace(chr(34), "").strip()` applied after the
square brackets have already been deleted from the line. -/
def extractTag (line tag : String) : String :=
  pyStrip (pyDeleteChar (pyRemovePfx line tag) '\"')

/-- `parse_pgn_game` from `src/preprocess_data.py`: materialize the line
iterator, then for each of `ceil(len(lines) / 20)` chunks take the 20-line
slice `lines[i*20:(i+1)*20]`, delete all square brackets, read the fields at
the fixed indices 6 (Result), 9 (WhiteElo), 10 (BlackElo), 14 (Opening) and
18 (move list), and tokenize the move list. A subscript past the end of the
slice raises IndexError, and `parse_moves` can raise too; an escaping
exception aborts the whole call and is modelled as `none`. The string-valued
entries of each produced dictionary are keyed exactly `result`, `white_elo`,
`black_elo`, `opening`. -/
def parse_pgn_game (lines : List String) : Option (List ParsedGame) :=
  (List.range ((lines.length + 19) / 20)).mapM (fun i => do
    let current_line := ((lines.drop (i * 20)).take 20).map
      (fun s => pyDeleteChar (pyDeleteChar s '[') ']')
    let l6 ← current_line[6]?
    let l9 ← current_line[9]?
    let l10 ← current_line[10]?
    let l14 ← current_line[14]?
    let l18 ← current_line[18]?
    let mvs ← parse_moves l18
    pure (ParsedGame.mk (extractTag l6 "Result ") (extractTag l9 "WhiteElo ")
      (extractTag l10 "BlackElo ") (extractTag l14 "Opening ") mvs))

/-- The string-keyed, string-valued entries of the Python dictionary built by
`parse_pgn_game` for one game. The real dictionary also holds the move list
under the key `moves`; that value is not a string and its key differs from
every key `filter_games_by_rating` looks up, so it is kept in the
`ParsedGame` structure instead of the association list. -/
def gameDataDict (g : ParsedGame) : List (String × String) :=
  [("result", g.result), ("white_elo", g.white_elo),
   ("black_elo", g.black_elo), ("opening", g.opening)]

/-- `filter_games_by_rating` from `src/preprocess_data.py`: look up the keys
`WhiteElo` and `BlackElo` with default `"0"`, convert both with `int`, and
require both to be at least `min_rating` (default 1400 at the call site).
The `try/except (ValueError, TypeError)` returning `False` is the `none`
branch of the match. -/
def filter_games_by_rating (game_data : List (String × String))
    (min_rating : Int) : Bool :=
  match pyInt (dictGet game_data "WhiteElo" "0"),
        pyInt (dictGet game_data "BlackElo" "0") with
  | some white_elo, some black_elo =>
    decide (min_rating ≤ white_elo) && decide (min_rating ≤ black_elo)
  | _, _ => false

/-- The generator loop of `read_zst_file_streaming`: iterate
`enumerate(text_reader)`, and at each step first draw a line from the
decoded stream, then stop when its index has reached `max_lines`, else yield
the line with trailing newline characters stripped. Returns the yielded
lines paired with the number of lines drawn from the stream. -/
def zstLoop (max_lines : Nat) : Nat → List String → List String × Nat
  | _, [] => ([], 0)
  | i, line :: rest =>
    if max_lines ≤ i then ([], 1)
    else
      match zstLoop max_lines (i + 1) rest with
      | (ys, n) => (pyRstripNewlines line :: ys, n + 1)

/-- `read_zst_file_streaming` from `src/preprocess_data.py`, with the
decompressed and UTF-8-decoded byte source modelled as the list of text
lines it yields (`max_lines` defaults to 500 at the definition site): the
sequence of lines the generator yields. -/
def read_zst_file_streaming (decoded_lines : List String)
    (max_lines : Nat) : List String :=
  (zstLoop max_lines 0 decoded_lines).1

/-- Number of lines `read_zst_file_streaming` consumes from the decoded
stream: every loop iteration, including the one that breaks, has already
drawn its line from the underlying reader. -/
def zstLinesConsumed (decoded_lines : List String) (max_lines : Nat) : Nat :=
  (zstLoop max_lines 0 decoded_lines).2

/-- A well-formed 20-line lichess-style game block laid out exactly as the
fixed offsets of `parse_pgn_game` expect: Result at index 6, WhiteElo at 9,
BlackElo at 10, Opening at 14, the move list at 18. -/
def goodBlock : List String :=
  ["[Event \"Rated Blitz game\"]",
   "[Site \"https://lichess.org/abcd1234\"]",
   "[Date \"2022.12.01\"]",
   "[Round \"-\"]",
   "[White \"alice\"]",
   "[Black \"bob\"]",
   "[Result \"1-0\"]",
   "[UTCDate \"2022.12.01\"]",
   "[UTCTime \"00:00:01\"]",
   "[WhiteElo \"1500\"]",
   "[BlackElo \"1400\"]",
   "[WhiteRatingDiff \"+6\"]",
   "[BlackRatingDiff \"-6\"]",
   "[ECO \"B01\"]",
   "[Opening \"Scandinavian Defense\"]",
   "[TimeControl \"300+0\"]",
   "[Termination \"Normal\"]",
   "",
   "1. e4 d5 2. exd5 Qxd5 1-0",
   ""]

/-- The same 20-line block with the `BlackElo` tag pair absent: the tags
after `WhiteElo` each sit one index earlier, so index 10 now holds the
`WhiteRatingDiff` tag (a extra `Variant` tag keeps `Opening` at index 14
and the move list at index 18). -/
def blockMissingBlackElo : List String :=
  ["[Event \"Rated Blitz game\"]",
   "[Site \"https://lichess.org/abcd1234\"]",
   "[Date \"2022.12.01\"]",
   "[Round \"-\"]",
   "[White \"alice\"]",
   "[Black \"bob\"]",
   "[Result \"1-0\"]",
   "[UTCDate \"2022.12.01\"]",
   "[UTCTime \"00:00:01\"]",
   "[WhiteElo \"1500\"]",
   "[WhiteRatingDiff \"+6\"]",
   "[BlackRatingDiff \"-6\"]",
   "[ECO \"B01\"]",
   "[Variant \"Standard\"]",
   "[Opening \"Scandinavian Defense\"]",
   "[TimeControl \"300+0\"]",
   "[Termination \"Normal\"]",
   "",
   "1. e4 d5 2. exd5 Qxd5 1-0",
   ""]

/-- A dangling metadata block at end of stream: seventeen tag lines and no
move-list line at all. -/
def danglingBlock : List String := goodBlock.take 17

/-- Claim C1: on a game-data dictionary whose `WhiteElo` and `BlackElo`
lookups (defaulting to `"0"`) parse as integers, `filter_games_by_rating`
returns true iff both ratings meet or exceed the threshold; the record with
WhiteElo 1500 and BlackElo 1390 is rejected at threshold 1400, and the one
with WhiteElo 1500 and BlackElo 1400 is accepted. -/
theorem filter_games_by_rating_iff_both_meet_threshold :
    (∀ (d : List (String × String)) (m w b : Int),
      pyInt (dictGet d "WhiteElo" "0") = some w →
      pyInt (dictGet d "BlackElo" "0") = some b →
      (filter_games_by_rating d m = true ↔ (w ≥ m ∧ b ≥ m)))
    ∧ filter_games_by_rating
        [("WhiteElo", "1500"), ("BlackElo", "1390")] 1400 = false
    ∧ filter_games_by_rating
        [("WhiteElo", "1500"), ("BlackElo", "1400")] 1400 = true := by
  refine ⟨?_, by decide, by decide⟩
  intro d m w b hw hb
  unfold filter_games_by_rating
  rw [hw, hb]
  simp [ge_iff_le]

/-- Witness for C1: the general equivalence applied to a concrete
dictionary that passes the filter. -/
theorem filter_games_by_rating_iff_both_meet_threshold_witness :
    filter_games_by_rating
      [("WhiteElo", "1600"), ("BlackElo", "1500")] 1400 = true :=
  (filter_games_by_rating_iff_both_meet_threshold.1
      [("WhiteElo", "1600"), ("BlackElo", "1500")] 1400 1600 1500
      (by decide) (by decide)).mpr (by decide)

/-- Claim C2 (refuting evaluation): on a 20-line block that carries no
BlackElo tag pair at all, `parse_pgn_game` does not fail; it silently
constructs a record whose `black_elo` field holds the stripped content of
whatever line sits at index 10 — here the WhiteRatingDiff tag. -/
theorem parse_pgn_game_missing_blackelo_yields_record :
    (blockMissingBlackElo.all
      (fun s => !(("[BlackElo" : String).data.isPrefixOf s.data))) = true
    ∧ parse_pgn_game blockMissingBlackElo =
        some [ParsedGame.mk "1-0" "1500" "WhiteRatingDiff +6"
          "Scandinavian Defense" [("1", "e4")]] :=
  ⟨by decide, by decide⟩

/-- Claim C3: `parse_pgn_game` stores ratings under the keys `white_elo` and
`black_elo`, while `filter_games_by_rating` looks up `WhiteElo` and
`BlackElo` with default `"0"`; hence every record produced by
`parse_pgn_game` fails the filter at every threshold of at least 1,
whatever its actual ratings. -/
theorem parse_pgn_game_records_never_pass_filter
    (lines : List String) (gs : List ParsedGame)
    (_hp : parse_pgn_game lines = some gs) (g : ParsedGame) (_hg : g ∈ gs)
    (m : Int) (hm : 1 ≤ m) :
    filter_games_by_rating (gameDataDict g) m = false := by
  have hw : pyInt (dictGet (gameDataDict g) "WhiteElo" "0") = some 0 := rfl
  have hb : pyInt (dictGet (gameDataDict g) "BlackElo" "0") = some 0 := rfl
  have h0 : ¬ (m ≤ (0 : Int)) := by omega
  unfold filter_games_by_rating
  rw [hw, hb]
  simp [h0]

/-- Witness for C3: the record parsed from a well-formed block with both
ratings 1400 or above is still rejected at threshold 1400. -/
theorem parse_pgn_game_records_never_pass_filter_witness :
    filter_games_by_rating
      (gameDataDict (ParsedGame.mk "1-0" "1500" "1400"
        "Scandinavian Defense" [("1", "e4")])) 1400 = false :=
  parse_pgn_game_records_never_pass_filter goodBlock
    [ParsedGame.mk "1-0" "1500" "1400" "Scandinavian Defense" [("1", "e4")]]
    (by decide)
    (ParsedGame.mk "1-0" "1500" "1400" "Scandinavian Defense" [("1", "e4")])
    (by decide) 1400 (by decide)

/-- Bounds on the generator loop of `read_zst_file_streaming`: starting at
index `i`, it yields at most `max_lines - i` lines and draws at most
`max_lines - i + 1` lines from the decoded stream. -/
theorem zstLoop_bounds (max_lines : Nat) (i : Nat) (l : List String) :
    (zstLoop max_lines i l).1.length ≤ max_lines - i ∧
    (zstLoop max_lines i l).2 ≤ (max_lines - i) + 1 := by
  induction l generalizing i with
  | nil => simp [zstLoop]
  | cons x xs ih =>
    by_cases h : max_lines ≤ i
    · simp [zstLoop, h]
    · have hx := ih (i + 1)
      simp only [zstLoop, h, if_false, List.length_cons]
      omega

/-- Claim C4 (amended): `read_zst_file_streaming` yields at most `max_lines`
lines, and the number of lines it consumes from the decoded stream never
exceeds `max_lines + 1` (the loop draws one line past the cap before the
index check breaks). -/
theorem read_zst_file_streaming_bounded (decoded_lines : List String)
    (max_lines : Nat) :
    (read_zst_file_streaming decoded_lines max_lines).length ≤ max_lines ∧
    zstLinesConsumed decoded_lines max_lines ≤ max_lines + 1 := by
  have hx := zstLoop_bounds max_lines 0 decoded_lines
  simpa [read_zst_file_streaming, zstLinesConsumed] using hx

/-- Counterexample to C4 as stated: with cap 1 and a two-line stream, the
decoder consumes two lines — the `enumerate` loop reads the line at index 1
before the `i >= max_lines` check breaks — so the number of lines consumed
exceeds the configured cap. -/
theorem zst_lines_consumed_can_exceed_cap :
    ¬ (zstLinesConsumed ["a", "b"] 1 ≤ 1) := by decide

/-- Claim C5 (refuting evaluation): on the line with two moves and a
decisive result token, `parse_moves` returns the single pair
`("1", "e4")` — the fixed five-character trim eats the second move's tail
and brace-splitting leaves one segment — not the claimed two pairs. -/
theorem parse_moves_two_move_line_eval :
    parse_moves "1. e4 2. Nf3 1-0" = some [("1", "e4")] := by decide

/-- Claim C6 (refuting evaluation): on the clock-annotated draw line, the
five-character trim leaves the dangling segment `1/` of the seven-character
draw token `1/2-1/2`; `split(" ")[1]` on it raises IndexError, modelled as
`none`, instead of yielding the two moves. -/
theorem parse_moves_clk_draw_line_eval :
    parse_moves
      "1. e4 \x7b [%clk 0:02:00] \x7d 1... c5 \x7b [%clk 0:02:00] \x7d 1/2-1/2"
      = none := by decide

/-- Claim C7 (refuting evaluation): on the empty move-list line — which has
no move-number markers — `parse_moves` raises IndexError (modelled `none`)
rather than returning an empty sequence; and on a marker-less prose line it
returns a non-empty bogus move sequence rather than an empty one. -/
theorem parse_moves_no_markers_eval :
    parse_moves "" = none
    ∧ parse_moves "no markers here" = some [("no markers", "markers")] :=
  ⟨by decide, by decide⟩

/-- Claim C8 (refuting evaluation): a dangling 17-line metadata block with
no move-list line makes `parse_pgn_game` raise IndexError at the subscript
`current_line[18]` (modelled `none`); and when a well-formed block precedes
the dangling one, the same crash aborts the whole call, losing the good
record too — there is no per-record failure reporting. -/
theorem parse_pgn_game_dangling_block_eval :
    parse_pgn_game danglingBlock = none
    ∧ parse_pgn_game (goodBlock ++ danglingBlock) = none :=
  ⟨by decide, by decide⟩

/-- Claim C9: on the empty line sequence `parse_pgn_game` returns the empty
record list and raises nothing. -/
theorem parse_pgn_game_empty_input :
    parse_pgn_game ([] : List String) = some [] := by decide

/-- Claim C10: `filter_games_by_rating` is a total Boolean function (the
`try/except` catches the conversion errors), and whenever either rating is
missing from the dictionary (so the lookup defaults to `"0"`, which
converts to 0) or is a string `int` rejects, the filter returns false for
every positive threshold instead of propagating an exception. -/
theorem filter_games_by_rating_bad_rating_false
    (d : List (String × String)) (m : Int) (hm : 0 < m)
    (h : (d.find? (fun p => p.1 == "WhiteElo") = none ∨
          pyInt (dictGet d "WhiteElo" "0") = none) ∨
         (d.find? (fun p => p.1 == "BlackElo") = none ∨
          pyInt (dictGet d "BlackElo" "0") = none)) :
    filter_games_by_rating d m = false := by
  have h0 : ¬ (m ≤ (0 : Int)) := by omega
  have h4 : pyInt (dictGet d "WhiteElo" "0") = some 0 ∨
      pyInt (dictGet d "WhiteElo" "0") = none ∨
      pyInt (dictGet d "BlackElo" "0") = some 0 ∨
      pyInt (dictGet d "BlackElo" "0") = none := by
    rcases h with (hw | hw) | (hb | hb)
    · exact Or.inl (by unfold dictGet; rw [hw]; decide)
    · exact Or.inr (Or.inl hw)
    · exact Or.inr (Or.inr (Or.inl (by unfold dictGet; rw [hb]; decide)))
    · exact Or.inr (Or.inr (Or.inr hb))
  unfold filter_games_by_rating
  cases hpw : pyInt (dictGet d "WhiteElo" "0") with
  | none =>
    cases hpb : pyInt (dictGet d "BlackElo" "0") with
    | none => rfl
    | some b => rfl
  | some w =>
    cases hpb : pyInt (dictGet d "BlackElo" "0") with
    | none => rfl
    | some b =>
      show (decide (m ≤ w) && decide (m ≤ b)) = false
      rcases h4 with h4 | h4 | h4 | h4
      · rw [hpw] at h4
        injection h4 with h4
        subst h4
        simp [h0]
      · rw [hpw] at h4; exact absurd h4 (by simp)
      · rw [hpb] at h4
        injection h4 with h4
        subst h4
        simp [h0]
      · rw [hpb] at h4; exact absurd h4 (by simp)

/-- Witness for C10: the empty dictionary is missing both ratings and is
rejected at threshold 1400. -/
theorem filter_games_by_rating_bad_rating_false_witness :
    filter_games_by_rating [] 1400 = false :=
  filter_games_by_rating_bad_rating_false [] 1400 (by decide)
    (Or.inl (Or.inl rfl))
